import Mathlib

/-!
Verification of the rollback coordination subsystem (vault/rollback.go).

The Go source under verification is `src/vault/rollback.go`.  Collaborator
packages (the `namespace` package, the `logical` SDK, the lock grabber and
the mount-table constants) are not part of the source tree; where one of
their facts is needed it is modelled from the specification and marked as
such in its doc comment.

Errors are modelled as `Option String`: `none` is the Go `nil` error, and
`some s` is an error whose `Error()` text is `s`.
-/

/-- A Go error: `none` is `nil`, `some s` an error with message `s`. -/
abbrev GoError := Option String

/-- Modelled from the spec: the sentinel error the SDK returns for an
operation a backend does not support ("operation not supported"); only its
identity matters, rollback.go compares with `==`. -/
def errUnsupportedOperation : String := "unsupported operation"

/-- Modelled from the spec: the text of the read-only-storage error of the SDK
("storage is read-only"); rollback.go only matches this text with
`strings.Contains`. -/
def errReadOnlyText : String := "cannot write to readonly storage"

/-- Modelled from the spec: the error the `namespace` package returns when no
namespace can be derived from a context. -/
def errNoNamespace : String := "no namespace"

/-- The error built at rollback.go line 239. -/
def errRollbackShuttingDown : String := "rollback shutting down"

/-- Is `pre` a leading segment of `l`?  (Embeds the Go `strings.HasPrefix` on
rune lists.) -/
def leadsChars : List Char → List Char → Bool
  | [], _ => true
  | _ :: _, [] => false
  | a :: as, b :: bs => a == b && leadsChars as bs

/-- Does `sub` occur contiguously inside `s`?  (Embeds the Go
`strings.Contains` on rune lists.) -/
def containsChars (s sub : List Char) : Bool :=
  leadsChars sub s ||
    match s with
    | [] => false
    | _ :: rest => containsChars rest sub

/-- Embedding of the Go `strings.Contains(s, sub)` as `strContains s sub`. -/
def strContains (s sub : String) : Bool :=
  containsChars s.data sub.data

/-- Modelled from the spec: a namespace, of which rollback.go uses only the
`Path` field and `TrimmedPath`. -/
structure Namespace where
  path : String
deriving DecidableEq, Repr

/-- Modelled from the spec: `Namespace.TrimmedPath` strips the own path of the namespace from the front of a fully-qualified path (the request is scoped to
the namespace-relative path). -/
def Namespace.trimmedPath (ns : Namespace) (fullPath : String) : String :=
  if leadsChars ns.path.data fullPath.data then
    ⟨fullPath.data.drop ns.path.data.length⟩
  else fullPath

/-- Modelled from the spec: a `logical.Response`; rollback.go touches only
`IsError()` and `Error()`, which report an error message carried inside the
response. -/
structure Response where
  errMsg : Option String
deriving DecidableEq, Repr

/-- Embedding of `resp.IsError()` on a possibly-nil response: a nil response is not an
error response. -/
def respIsError : Option Response → Bool
  | none => false
  | some r => r.errMsg.isSome

/-- Embedding of `resp.Error().Error()` on a possibly-nil response (only ever consulted
under `respIsError`). -/
def respErrText : Option Response → String
  | none => ""
  | some r => r.errMsg.getD ""

/-- The error-interpretation tail of `attemptRollback`
(rollback.go lines 254-263): an `ErrUnsupportedOperation` result is
normalized to nil, then a read-only-storage text match — on the error
directly or on the error embedded in the response — is normalized to nil. -/
def normalizeRollbackErr (resp : Option Response) (err : GoError) : GoError :=
  -- line 256: if err == logical.ErrUnsupportedOperation { err = nil }
  let err := if err = some errUnsupportedOperation then none else err
  -- lines 260-263: read-only storage, directly or embedded in the response
  let err :=
    if (match err with
        | some e => strContains e errReadOnlyText
        | none => false)
       || (respIsError resp && strContains (respErrText resp) errReadOnlyText)
    then none else err
  err

/-- Outcome of the lock race in `attemptRollback` (rollback.go lines
231-243).  `acquired` is `lockOrStop()` returning `stopped = false`;
`stoppedShutdown` is `stopped = true` with `m.shutdownCh` closed at the
`select` on line 237; `stoppedCancel` is `stopped = true` with the shutdown
channel still open, i.e. the stop came from the own
`cancelLockGrabCtx` of the attempt having been cancelled by a synchronous joiner. -/
inductive LockRace
  | acquired
  | stoppedShutdown
  | stoppedCancel
deriving DecidableEq, Repr

/-- Observable effects of one `attemptRollback` execution. -/
structure AttemptEffects where
  /-- the value of `err` at the deferred publication block (line 191). -/
  terminalErr : GoError
  /-- whether the `logical.Request` of lines 210-213 was built. -/
  requestBuilt : Bool
  /-- the `Path` field of that request when built. -/
  requestPath : String
  /-- whether the lock-race block (lines 216-244) was entered at all. -/
  enteredLockGrab : Bool
  /-- whether this attempt itself acquired the read side of the state lock. -/
  attemptAcquiredLock : Bool
  /-- whether line 250 released the read side of the state lock. -/
  releasedLock : Bool
  /-- whether the downstream `m.router.Route` call (line 248) executed. -/
  downstreamRan : Bool
deriving DecidableEq, Repr

/-- Embedding of `attemptRollback` (rollback.go lines 187-268).  `nsErr` and
`ns` are the two return values of `namespace.FromContext(ctx)`; `race` is
the outcome of the lock race when it is run; `resp` and `derr` are the two
return values of the downstream `m.router.Route` call when it is reached. -/
def attemptRollback (nsErr : Option String) (ns : Option Namespace)
    (fullPath : String) (grabStatelock : Bool) (race : LockRace)
    (resp : Option Response) (derr : GoError) : AttemptEffects :=
  -- lines 199-203: namespace derivation error is fatal to the attempt
  match nsErr with
  | some e => ⟨some e, false, "", false, false, false, false⟩
  | none =>
    -- lines 204-207: a nil namespace is fatal to the attempt
    match ns with
    | none => ⟨some errNoNamespace, false, "", false, false, false, false⟩
    | some n =>
      -- lines 210-213: build the rollback request
      let reqPath := n.trimmedPath fullPath
      -- lines 215-244: releaseLock := true; optional lock race
      if grabStatelock then
        match race with
        | .stoppedShutdown =>
          -- lines 237-239: stopped and shutdownCh closed: return early
          ⟨some errRollbackShuttingDown, true, reqPath, true, false, false, false⟩
        | .stoppedCancel =>
          -- lines 240-242: releaseLock = false, proceed without the lock
          ⟨normalizeRollbackErr resp derr, true, reqPath, true, false, false, true⟩
        | .acquired =>
          -- acquired: proceed, release after the Route call (lines 249-251)
          ⟨normalizeRollbackErr resp derr, true, reqPath, true, true, true, true⟩
      else
        -- grabStatelock false: straight to the downstream call, no release
        ⟨normalizeRollbackErr resp derr, true, reqPath, false, false, false, true⟩

/-- Observable effects of one synchronous `Rollback` call. -/
structure SyncRollbackEff where
  /-- the error the call returns. -/
  returned : GoError
  /-- the `(fullPath, grabStatelock)` argument pair passed to
  `startOrLookupRollback`, or `none` if it was never called. -/
  startOrLookupArg : Option (String × Bool)
  /-- whether `rs.cancelLockGrabCtxCancel()` was invoked. -/
  cancelTriggered : Bool
  /-- whether the call blocked on `rs.Wait()` until attempt completion. -/
  waitedForCompletion : Bool
deriving DecidableEq, Repr

/-- Embedding of `Rollback` (rollback.go lines 274-297).  `nsErr` and `nsV`
are the two return values of `namespace.FromContext(ctx)`; `rsLastError` is
the recorded terminal error of the joined attempt at the moment `rs.Wait()`
returns.  The result is `none` exactly on the nil-namespace dereference of
`ns.Path` (line 279), which a nil `ns` with nil error would hit. -/
def RollbackCall (nsErr : Option String) (nsV : Option Namespace)
    (path : String) (rsLastError : GoError) : Option SyncRollbackEff :=
  -- lines 275-278: namespace derivation error returns immediately
  match nsErr with
  | some e => some ⟨some e, none, false, false⟩
  | none =>
    match nsV with
    | none => none
    | some ns =>
      -- line 279: fullPath := ns.Path + path
      let fullPath := ns.path ++ path
      -- line 282: start-or-join with grabStatelock = false,
      -- line 289: unconditional cancel, line 293: wait, line 296: rs.lastError
      some ⟨rsLastError, some (fullPath, false), true, true⟩

/-- Modelled from the spec: the mount-table type tag of credential backends
(`credentialTableType`, defined outside the source in this tree). -/
def credentialTableType : String := "auth"

/-- Modelled from the spec: the routing path segment prepended to
credential-mount paths (`credentialRoutePfx`, defined outside the source in this
tree). -/
def credentialRoutePfx : String := "auth/"

/-- The fields of a `MountEntry` that `triggerRollbacks` reads: its path,
its table tag and the path of its owning namespace. -/
structure MountEntry where
  path : String
  table : String
  nsPath : String
deriving DecidableEq, Repr

/-- The target path computed at rollback.go lines 144-147: the path of the entry,
prefixed with the credential route segment when the entry lives in the
credential table. -/
def rollbackTarget (e : MountEntry) : String :=
  if e.table = credentialTableType then credentialRoutePfx ++ e.path else e.path

/-- Embedding of `triggerRollbacks` (rollback.go lines 140-160):
the list of `(fullPath, grabStatelock)` argument pairs it passes to
`startOrLookupRollback`, in mount order.  `matching` stands for
`m.router.MatchingBackend` resolved in the namespace context of the entry; a
`none` backend is skipped with no call and no error. -/
def triggerRollbackCalls (backends : List MountEntry)
    (matching : MountEntry → String → Option Unit) : List (String × Bool) :=
  backends.filterMap (fun e =>
    let path := rollbackTarget e
    match matching e path with
    | none => none
    | some _ => some (e.nsPath ++ path, true))

/-- Look up `p` in an association list (a map lookup under `inflightLock`). -/
def lookupPath (l : List (String × Nat)) (p : String) : Option Nat :=
  match l with
  | [] => none
  | (q, v) :: rest => if q = p then some v else lookupPath rest p

/-- Delete `p` from an association list (the Go `delete(m.inflight, p)`). -/
def removePath (l : List (String × Nat)) (p : String) : List (String × Nat) :=
  match l with
  | [] => []
  | (q, v) :: rest => if q = p then removePath rest p else (q, v) :: removePath rest p

/-- The shared mutable state of a `RollbackManager` at the granularity of its
lock-protected critical sections: the in-flight registry (path to attempt
id), the set of live attempt tasks (path, id), the `inflightAll` wait-group
counter, the `shutdown` flag with its closed channel, whether the loop of `run`
has exited (doneCh closed), and the id allocator. -/
structure MgrState where
  inflight : List (String × Nat)
  tasks : List (String × Nat)
  wgCount : Nat
  shutdown : Bool
  loopExited : Bool
  nextId : Nat
deriving DecidableEq, Repr

/-- The state of a freshly created manager (`NewRollbackManager`). -/
def initMgr : MgrState :=
  { inflight := [], tasks := [], wgCount := 0,
    shutdown := false, loopExited := false, nextId := 0 }

/-- Embedding of `startOrLookupRollback` (rollback.go lines 164-184), one
atomic critical section under `inflightLock`.  Returns the new state, the id
of the returned `rollbackState`, and whether a new attempt task was spawned.
Note there is no shutdown check in the source. -/
def startOrLookupStep (s : MgrState) (path : String) : MgrState × Nat × Bool :=
  match lookupPath s.inflight path with
  | some rid => (s, rid, false)
  | none =>
      let rid := s.nextId
      ({ s with inflight := (path, rid) :: s.inflight,
                tasks := (path, rid) :: s.tasks,
                wgCount := s.wgCount + 1,
                nextId := s.nextId + 1 }, rid, true)

/-- The interleaved events of the manager, at the granularity of its atomic
critical sections. -/
inductive MgrAction
  /-- Event: `startOrLookupRollback(_, path, true)` reached from `triggerRollbacks`
  inside the loop of `run` — only possible while the loop has not exited. -/
  | sweepTrigger (path : String)
  /-- Event: `startOrLookupRollback(_, path, false)` reached from a synchronous
  `Rollback` call — the source puts no guard on it. -/
  | syncRollback (path : String)
  /-- an attempt task for `path` runs its deferred publication block
  (lines 190-197): `Done()` on both wait groups and registry delete. -/
  | finishTask (path : String)
  /-- Event: `Stop` takes `shutdownLock`, sets `shutdown` and closes `shutdownCh`
  (lines 92-94) — enabled once. -/
  | stopBegin
  /-- Event: `run` observes the closed `shutdownCh` and returns, closing `doneCh`
  (lines 125-127, 119) — requires shutdown begun. -/
  | loopExit
  /-- Event: `Stop` returns: it has seen `doneCh` closed and `inflightAll.Wait()`
  observed a zero counter (lines 95-97). -/
  | stopReturn
deriving DecidableEq, Repr

/-- One atomic step of the manager; `none` means the event is not enabled in
this state. -/
def mgrStep (s : MgrState) : MgrAction → Option MgrState
  | .sweepTrigger p =>
      if s.loopExited then none else some (startOrLookupStep s p).1
  | .syncRollback p => some (startOrLookupStep s p).1
  | .finishTask p =>
      match lookupPath s.tasks p with
      | none => none
      | some _ => some { s with inflight := removePath s.inflight p,
                                tasks := removePath s.tasks p,
                                wgCount := s.wgCount - 1 }
  | .stopBegin => if s.shutdown then none else some { s with shutdown := true }
  | .loopExit =>
      if s.shutdown && !s.loopExited then some { s with loopExited := true }
      else none
  | .stopReturn =>
      if s.shutdown && s.loopExited && s.wgCount == 0 then some s else none

/-- Run a sequence of manager events from a state; `none` as soon as one is
not enabled. -/
def execTrace (s : MgrState) : List MgrAction → Option MgrState
  | [] => some s
  | a :: rest =>
      match mgrStep s a with
      | none => none
      | some s' => execTrace s' rest

/-- How many live attempt tasks exist for `p`. -/
def tasksFor (s : MgrState) (p : String) : Nat :=
  (s.tasks.filter (fun q => q.1 = p)).length

/-- The structural invariant of the manager: the live tasks are exactly the
registry entries, registry keys are distinct, and the `inflightAll` counter
counts the live tasks. -/
def MgrInv (s : MgrState) : Prop :=
  s.tasks = s.inflight ∧ (s.inflight.map Prod.fst).Nodup ∧
    s.wgCount = s.tasks.length

/-- What a joiner can observe of one attempt around its completion: the
recorded error of the `rollbackState`, whether its completion wait-group has
been released, and whether the registry still holds the entry of the attempt. -/
structure FinishSnap where
  lastError : GoError
  doneSignalled : Bool
  registryHasEntry : Bool
deriving DecidableEq, Repr

/-- Embedding of the deferred publication block of `attemptRollback`
(rollback.go lines 190-197) as the sequence of observable states it passes
through, starting from a live attempt (error slot `e0`, completion not yet
signalled, registry entry present — lines 179-180 establish this at
creation) and executing, in program order: `rs.lastError = err` (line 191),
`rs.Done()` (line 192), `delete(m.inflight, fullPath)` (lines 194-196). -/
def finishSnapshots (e0 err : GoError) : List FinishSnap :=
  [ ⟨e0, false, true⟩,
    ⟨err, false, true⟩,
    ⟨err, true, true⟩,
    ⟨err, true, false⟩ ]

/-- A resolver that finds a backend for every mount (used to exercise the
sweep on a concrete mount table). -/
def matchAllBackends : MountEntry → String → Option Unit :=
  fun _ _ => some ()

/-! ### Registry association-list lemmas -/

theorem lookupPath_eq_none_iff (l : List (String × Nat)) (p : String) :
    lookupPath l p = none ↔ p ∉ l.map Prod.fst := by
  induction l with
  | nil => simp [lookupPath]
  | cons hd tl ih =>
      obtain ⟨q, v⟩ := hd
      by_cases hq : q = p
      · subst hq
        simp [lookupPath]
      · simp [lookupPath, hq, ih, Ne.symm hq]

theorem removePath_of_not_mem (l : List (String × Nat)) (p : String)
    (h : p ∉ l.map Prod.fst) : removePath l p = l := by
  induction l with
  | nil => rfl
  | cons hd tl ih =>
      obtain ⟨q, v⟩ := hd
      simp only [List.map_cons, List.mem_cons] at h
      push_neg at h
      simp [removePath, Ne.symm h.1, ih h.2]

theorem removePath_map_sublist (l : List (String × Nat)) (p : String) :
    ((removePath l p).map Prod.fst).Sublist (l.map Prod.fst) := by
  induction l with
  | nil => simp [removePath]
  | cons hd tl ih =>
      obtain ⟨q, v⟩ := hd
      by_cases hq : q = p
      · simp only [removePath, hq, if_pos rfl]
        exact ih.trans (List.sublist_cons_self _ _)
      · simpa [removePath, hq] using ih.cons₂ q

theorem removePath_length (l : List (String × Nat)) (p : String) :
    (lookupPath l p).isSome = true → (l.map Prod.fst).Nodup →
    (removePath l p).length + 1 = l.length := by
  induction l with
  | nil => intro hl _; simp [lookupPath] at hl
  | cons hd tl ih =>
      intro hl hn
      obtain ⟨q, w⟩ := hd
      simp only [List.map_cons, List.nodup_cons] at hn
      by_cases hq : q = p
      · subst hq
        simp [removePath, removePath_of_not_mem tl q hn.1]
      · simp only [lookupPath, if_neg hq] at hl
        have := ih hl hn.2
        simp only [removePath, if_neg hq, List.length_cons]
        omega

/-! ### The manager invariant and its preservation -/

theorem mgrInv_init : MgrInv initMgr := by
  refine ⟨rfl, ?_, rfl⟩
  simp [initMgr]

theorem mgrInv_startOrLookup (s : MgrState) (p : String) (h : MgrInv s) :
    MgrInv (startOrLookupStep s p).1 := by
  obtain ⟨ht, hn, hw⟩ := h
  unfold startOrLookupStep
  cases hl : lookupPath s.inflight p with
  | some rid => exact ⟨ht, hn, hw⟩
  | none =>
      refine ⟨by simp [ht], ?_, by simp [hw]⟩
      simp only [List.map_cons, List.nodup_cons]
      exact ⟨(lookupPath_eq_none_iff s.inflight p).mp hl, hn⟩

theorem mgrInv_step (s s' : MgrState) (a : MgrAction) (h : MgrInv s)
    (hs : mgrStep s a = some s') : MgrInv s' := by
  cases a with
  | sweepTrigger p =>
      simp only [mgrStep] at hs
      by_cases hl : s.loopExited
      · simp [hl] at hs
      · simp only [hl, if_neg] at hs
        cases hs
        exact mgrInv_startOrLookup s p h
  | syncRollback p =>
      simp only [mgrStep, Option.some_inj] at hs
      cases hs
      exact mgrInv_startOrLookup s p h
  | finishTask p =>
      obtain ⟨ht, hn, hw⟩ := h
      simp only [mgrStep] at hs
      cases hv : lookupPath s.tasks p with
      | none => simp [hv] at hs
      | some v =>
          simp only [hv, Option.some_inj] at hs
          cases hs
          refine ⟨by simp [ht], ?_, ?_⟩
          · exact hn.sublist (removePath_map_sublist s.inflight p)
          · have hlen := removePath_length s.tasks p (by simp [hv]) (ht ▸ hn)
            simp only [hw]
            omega
  | stopBegin =>
      obtain ⟨ht, hn, hw⟩ := h
      simp only [mgrStep] at hs
      by_cases hsd : s.shutdown
      · simp [hsd] at hs
      · simp only [hsd, if_neg, Bool.false_eq_true, not_false_iff] at hs
        cases hs
        exact ⟨ht, hn, hw⟩
  | loopExit =>
      obtain ⟨ht, hn, hw⟩ := h
      simp only [mgrStep] at hs
      by_cases hc : s.shutdown && !s.loopExited
      · simp only [hc, if_pos] at hs
        cases hs
        exact ⟨ht, hn, hw⟩
      · simp [hc] at hs
  | stopReturn =>
      simp only [mgrStep] at hs
      by_cases hc : s.shutdown && s.loopExited && s.wgCount == 0
      · simp only [hc, if_pos] at hs
        cases hs
        exact h
      · simp [hc] at hs

theorem execTrace_inv (tr : List MgrAction) :
    ∀ s0 s : MgrState, MgrInv s0 → execTrace s0 tr = some s → MgrInv s := by
  induction tr with
  | nil =>
      intro s0 s h0 he
      simp only [execTrace, Option.some_inj] at he
      cases he
      exact h0
  | cons a rest ih =>
      intro s0 s h0 he
      simp only [execTrace] at he
      cases hstep : mgrStep s0 a with
      | none => simp [hstep] at he
      | some s1 =>
          simp only [hstep] at he
          exact ih s1 s (mgrInv_step s0 s1 a h0 hstep) he

theorem filter_fst_length_le_one (p : String) (l : List (String × Nat)) :
    (l.map Prod.fst).Nodup → (l.filter (fun x => x.1 = p)).length ≤ 1 := by
  induction l with
  | nil => intro _; simp
  | cons hd tl ih =>
      intro hn
      obtain ⟨q, v⟩ := hd
      simp only [List.map_cons, List.nodup_cons] at hn
      by_cases hq : q = p
      · subst hq
        have : tl.filter (fun x => x.1 = q) = [] := by
          refine List.filter_eq_nil_iff.mpr ?_
          intro x hx hxq
          exact hn.1 (by
            simp only [decide_eq_true_eq] at hxq
            exact hxq ▸ List.mem_map_of_mem Prod.fst hx)
        simp [List.filter_cons, this]
      · simpa [List.filter_cons, hq] using ih hn.2

theorem tasksFor_le_one (s : MgrState) (p : String) (h : MgrInv s) :
    tasksFor s p ≤ 1 := by
  obtain ⟨ht, hn, -⟩ := h
  rw [tasksFor, ht]
  exact filter_fst_length_le_one p s.inflight hn

/-! ### Claim theorems -/

/-- C1: in every reachable manager state, while an entry for a path exists in
the in-flight registry, `startOrLookupRollback` for that path returns the
existing `rollbackState` and spawns no new attempt task (the manager state is
unchanged); a new task is spawned only when no entry exists, so at any
instant at most one attempt task exists per path. -/
theorem startOrLookup_dedup (tr : List MgrAction) (s : MgrState)
    (h : execTrace initMgr tr = some s) :
    (∀ p rid, lookupPath s.inflight p = some rid →
      startOrLookupStep s p = (s, rid, false)) ∧
    (∀ p, tasksFor s p ≤ 1) := by
  refine ⟨?_, ?_⟩
  · intro p rid hl
    simp [startOrLookupStep, hl]
  · intro p
    exact tasksFor_le_one s p (execTrace_inv tr initMgr s mgrInv_init h)

/-- Witness for C1 at the trace sweep-then-sync on one path: the join
returns the existing attempt without spawning, and one task exists. -/
theorem startOrLookup_dedup_witness :
    startOrLookupStep
        { inflight := [("a", 0)], tasks := [("a", 0)], wgCount := 1,
          shutdown := false, loopExited := false, nextId := 1 } "a" =
      ({ inflight := [("a", 0)], tasks := [("a", 0)], wgCount := 1,
         shutdown := false, loopExited := false, nextId := 1 }, 0, false) ∧
    tasksFor
        { inflight := [("a", 0)], tasks := [("a", 0)], wgCount := 1,
          shutdown := false, loopExited := false, nextId := 1 } "a" ≤ 1 :=
  ⟨(startOrLookup_dedup [MgrAction.sweepTrigger "a", MgrAction.syncRollback "a"]
        { inflight := [("a", 0)], tasks := [("a", 0)], wgCount := 1,
          shutdown := false, loopExited := false, nextId := 1 }
        (by decide)).1 "a" 0 (by decide),
   (startOrLookup_dedup [MgrAction.sweepTrigger "a", MgrAction.syncRollback "a"]
        { inflight := [("a", 0)], tasks := [("a", 0)], wgCount := 1,
          shutdown := false, loopExited := false, nextId := 1 }
        (by decide)).2 "a"⟩

/-- C2 counterexample: after `Stop` has begun (the shutdown flag is set and
`shutdownCh` is closed) but before the periodic loop has exited, a
synchronous `Rollback` call still spawns a brand-new attempt task —
`startOrLookupRollback` performs no shutdown check — so the claim that no
attempt task is ever started once `Stop()` has begun is false. -/
theorem stop_new_attempt_cex :
    execTrace initMgr [MgrAction.stopBegin, MgrAction.syncRollback "p"] =
      some { inflight := [("p", 0)], tasks := [("p", 0)], wgCount := 1,
             shutdown := true, loopExited := false, nextId := 1 } := by decide

/-- C2 (amended): `Stop()` returns only once the periodic run loop has
exited and the in-flight count is zero — at that instant no attempt task is
live — and after the loop has exited the periodic sweep can trigger no new
attempt; the shutdown flag alone, however, does not prevent a synchronous
`Rollback` call from starting a fresh attempt. -/
theorem stop_waits_for_attempts (tr : List MgrAction) (s s' : MgrState)
    (h : execTrace initMgr tr = some s)
    (hret : mgrStep s MgrAction.stopReturn = some s') :
    s.shutdown = true ∧ s.loopExited = true ∧ s.wgCount = 0 ∧ s.tasks = [] ∧
      (∀ p, mgrStep s (MgrAction.sweepTrigger p) = none) := by
  have hinv := execTrace_inv tr initMgr s mgrInv_init h
  simp only [mgrStep] at hret
  by_cases hc : s.shutdown && s.loopExited && s.wgCount == 0
  · simp only [Bool.and_eq_true, beq_iff_eq] at hc
    obtain ⟨⟨h1, h2⟩, h3⟩ := hc
    have htasks : s.tasks = [] := by
      obtain ⟨-, -, hw⟩ := hinv
      have : s.tasks.length = 0 := by omega
      exact List.length_eq_zero.mp this
    exact ⟨h1, h2, h3, htasks, fun p => by simp [mgrStep, h2]⟩
  · simp [hc] at hret

/-- Witness for the amended C2 at the trace stop-then-loop-exit: `Stop` can
return there, and at that state no attempt task is live. -/
theorem stop_waits_for_attempts_witness :
    ({ inflight := [], tasks := [], wgCount := 0, shutdown := true,
       loopExited := true, nextId := 0 } : MgrState).wgCount = 0 ∧
    ({ inflight := [], tasks := [], wgCount := 0, shutdown := true,
       loopExited := true, nextId := 0 } : MgrState).tasks = [] :=
  ⟨(stop_waits_for_attempts [MgrAction.stopBegin, MgrAction.loopExit]
      { inflight := [], tasks := [], wgCount := 0, shutdown := true,
        loopExited := true, nextId := 0 }
      { inflight := [], tasks := [], wgCount := 0, shutdown := true,
        loopExited := true, nextId := 0 }
      (by decide) (by decide)).2.2.1,
   (stop_waits_for_attempts [MgrAction.stopBegin, MgrAction.loopExit]
      { inflight := [], tasks := [], wgCount := 0, shutdown := true,
        loopExited := true, nextId := 0 }
      { inflight := [], tasks := [], wgCount := 0, shutdown := true,
        loopExited := true, nextId := 0 }
      (by decide) (by decide)).2.2.2.1⟩

/-- C6: in the deferred publication block, every snapshot in which the
completion signal has fired carries the recorded terminal error, every
snapshot in which the registry entry is gone has the signal already fired,
the error is recorded strictly before the signal fires (a snapshot holds the
error with the signal not yet fired), and the signal fires strictly before
the registry entry is removed (a snapshot has the signal fired with the
entry still present). -/
theorem completion_publication_order (e0 err : GoError) :
    (∀ snap ∈ finishSnapshots e0 err,
      snap.doneSignalled = true → snap.lastError = err) ∧
    (∀ snap ∈ finishSnapshots e0 err,
      snap.registryHasEntry = false →
        snap.doneSignalled = true ∧ snap.lastError = err) ∧
    FinishSnap.mk err false true ∈ finishSnapshots e0 err ∧
    FinishSnap.mk err true true ∈ finishSnapshots e0 err := by
  refine ⟨?_, ?_, ?_, ?_⟩
  · intro snap hs
    simp only [finishSnapshots, List.mem_cons, List.mem_singleton] at hs
    rcases hs with rfl | rfl | rfl | rfl | h
    · intro h; cases h
    · intro h; cases h
    · intro _; rfl
    · intro _; rfl
    · cases h
  · intro snap hs
    simp only [finishSnapshots, List.mem_cons, List.mem_singleton] at hs
    rcases hs with rfl | rfl | rfl | rfl | h
    · intro h; cases h
    · intro h; cases h
    · intro h; cases h
    · intro _; exact ⟨rfl, rfl⟩
    · cases h
  · simp [finishSnapshots]
  · simp [finishSnapshots]

/-- Witness for C6 at a concrete terminal error: the signal-fired snapshot
carries exactly that error. -/
theorem completion_publication_order_witness :
    (FinishSnap.mk (some "boom") true true).lastError = some "boom" :=
  (completion_publication_order none (some "boom")).1
    (FinishSnap.mk (some "boom") true true) (by simp [finishSnapshots]) rfl

/-- C3: with `grabStatelock` true, the read side of the state lock is
released after the downstream operation exactly when this attempt itself
acquired it in the lock race; in the branch where the lock wait was
abandoned by a synchronous joiner, the attempt acquires nothing, releases
nothing, and — whenever the race was reached at all — still runs the
downstream operation. -/
theorem statelock_release_pairing (nsErr : Option String) (ns : Option Namespace)
    (fullPath : String) (race : LockRace) (resp : Option Response)
    (derr : GoError) :
    ((attemptRollback nsErr ns fullPath true race resp derr).releasedLock =
      (attemptRollback nsErr ns fullPath true race resp derr).attemptAcquiredLock) ∧
    (race = LockRace.stoppedCancel →
      (attemptRollback nsErr ns fullPath true race resp derr).attemptAcquiredLock
          = false ∧
      (attemptRollback nsErr ns fullPath true race resp derr).releasedLock
          = false ∧
      ((attemptRollback nsErr ns fullPath true race resp derr).enteredLockGrab
            = true →
        (attemptRollback nsErr ns fullPath true race resp derr).downstreamRan
            = true)) := by
  cases nsErr <;> cases ns <;> cases race <;> simp [attemptRollback]

/-- Witness for C3 in the joiner-cancelled branch at a concrete input. -/
theorem statelock_release_pairing_witness :
    (attemptRollback none (some { path := "ns1/" }) "ns1/secret/" true
        LockRace.stoppedCancel none none).attemptAcquiredLock = false ∧
    (attemptRollback none (some { path := "ns1/" }) "ns1/secret/" true
        LockRace.stoppedCancel none none).releasedLock = false :=
  ⟨((statelock_release_pairing none (some { path := "ns1/" }) "ns1/secret/"
      LockRace.stoppedCancel none none).2 rfl).1,
   ((statelock_release_pairing none (some { path := "ns1/" }) "ns1/secret/"
      LockRace.stoppedCancel none none).2 rfl).2.1⟩

/-- C7: with `grabStatelock` true, a lock wait that is stopped while
shutdown is signalled ends the attempt immediately with the rollback
shutting down error, and the downstream operation is not executed. -/
theorem shutdown_race_aborts (ns : Namespace) (fullPath : String)
    (resp : Option Response) (derr : GoError) :
    (attemptRollback none (some ns) fullPath true LockRace.stoppedShutdown
        resp derr).terminalErr = some errRollbackShuttingDown ∧
    (attemptRollback none (some ns) fullPath true LockRace.stoppedShutdown
        resp derr).downstreamRan = false := by
  simp [attemptRollback]

/-- C9: a namespace-derivation failure — an error from the derivation, or a
nil namespace — ends the attempt immediately with that error as terminal
result: no request is built, the lock-race block is never entered, no lock
is acquired or released, and the downstream operation never runs. -/
theorem namespace_failure_fatal (fullPath : String) (grabStatelock : Bool)
    (race : LockRace) (resp : Option Response) (derr : GoError) :
    (∀ e ns, attemptRollback (some e) ns fullPath grabStatelock race resp derr =
      ⟨some e, false, "", false, false, false, false⟩) ∧
    (attemptRollback none none fullPath grabStatelock race resp derr =
      ⟨some errNoNamespace, false, "", false, false, false, false⟩) :=
  ⟨fun _ _ => rfl, rfl⟩

/-- Helper: whenever the downstream call ran, the terminal error is the
normalization of its two results. -/
theorem attempt_terminal_of_ran (nsErr : Option String) (ns : Option Namespace)
    (fullPath : String) (grabStatelock : Bool) (race : LockRace)
    (resp : Option Response) (derr : GoError)
    (h : (attemptRollback nsErr ns fullPath grabStatelock race resp
            derr).downstreamRan = true) :
    (attemptRollback nsErr ns fullPath grabStatelock race resp derr).terminalErr
      = normalizeRollbackErr resp derr := by
  cases nsErr <;> cases ns <;> cases grabStatelock <;> cases race <;>
    simp_all [attemptRollback]

/-- C5: whenever the downstream operation ran, the terminal error of the
attempt is nil when the downstream error is the unsupported-operation
sentinel, or contains the read-only-storage text, or the response carries an
embedded error containing the read-only-storage text; any other downstream
error becomes the terminal error verbatim. -/
theorem rollback_error_normalization (nsErr : Option String)
    (ns : Option Namespace) (fullPath : String) (grabStatelock : Bool)
    (race : LockRace) (resp : Option Response) (derr : GoError)
    (h : (attemptRollback nsErr ns fullPath grabStatelock race resp
            derr).downstreamRan = true) :
    (derr = some errUnsupportedOperation →
      (attemptRollback nsErr ns fullPath grabStatelock race resp
          derr).terminalErr = none) ∧
    (∀ e, derr = some e → strContains e errReadOnlyText = true →
      (attemptRollback nsErr ns fullPath grabStatelock race resp
          derr).terminalErr = none) ∧
    (respIsError resp = true →
      strContains (respErrText resp) errReadOnlyText = true →
      (attemptRollback nsErr ns fullPath grabStatelock race resp
          derr).terminalErr = none) ∧
    (∀ e, derr = some e → e ≠ errUnsupportedOperation →
      strContains e errReadOnlyText = false →
      (respIsError resp && strContains (respErrText resp) errReadOnlyText)
          = false →
      (attemptRollback nsErr ns fullPath grabStatelock race resp
          derr).terminalErr = some e) := by
  rw [attempt_terminal_of_ran nsErr ns fullPath grabStatelock race resp derr h]
  refine ⟨?_, ?_, ?_, ?_⟩
  · rintro rfl
    simp [normalizeRollbackErr]
  · rintro e rfl hc
    by_cases he : e = errUnsupportedOperation
    · subst he; simp [normalizeRollbackErr]
    · simp [normalizeRollbackErr, he, hc]
  · intro hr hc
    rcases derr with - | e
    · simp [normalizeRollbackErr, hr, hc]
    · by_cases he : e = errUnsupportedOperation
      · subst he; simp [normalizeRollbackErr, hr, hc]
      · simp [normalizeRollbackErr, he, hr, hc]
  · rintro e rfl he hce hresp
    simp [normalizeRollbackErr, he, hce, hresp]

/-- Witness for C5: an unsupported-operation downstream result yields a nil
terminal error at a concrete input. -/
theorem rollback_error_normalization_witness :
    (attemptRollback none (some { path := "" }) "secret/" false
        LockRace.acquired none (some errUnsupportedOperation)).terminalErr
      = none :=
  (rollback_error_normalization none (some { path := "" }) "secret/" false
      LockRace.acquired none (some errUnsupportedOperation) (by decide)).1 rfl

/-- C4: a synchronous `Rollback` whose context yields a namespace
start-or-joins the attempt for the fully-qualified path with
`grabStatelock = false`, unconditionally triggers the lock-grab cancellation
handle of that attempt, blocks until the attempt completes, and returns the
recorded terminal error of the attempt; two calls that join the same attempt
return that same error. -/
theorem sync_rollback_returns_attempt_error (ns : Namespace) (path : String)
    (rsErr : GoError) :
    RollbackCall none (some ns) path rsErr =
      some ⟨rsErr, some (ns.path ++ path, false), true, true⟩ ∧
    (∀ r1 r2 : SyncRollbackEff,
      RollbackCall none (some ns) path rsErr = some r1 →
      RollbackCall none (some ns) path rsErr = some r2 →
      r1.returned = r2.returned) := by
  refine ⟨rfl, ?_⟩
  intro r1 r2 h1 h2
  rw [h1, Option.some.injEq] at h2
  rw [h2]

/-- Witness for C4 at a concrete path and attempt error. -/
theorem sync_rollback_returns_attempt_error_witness :
    RollbackCall none (some { path := "ns1/" }) "secret/x" (some "boom") =
      some ⟨some "boom", some ("ns1/secret/x", false), true, true⟩ ∧
    (⟨some "boom", some ("ns1/secret/x", false), true, true⟩ :
        SyncRollbackEff).returned =
      (⟨some "boom", some ("ns1/secret/x", false), true, true⟩ :
        SyncRollbackEff).returned :=
  ⟨(sync_rollback_returns_attempt_error { path := "ns1/" } "secret/x"
      (some "boom")).1,
   (sync_rollback_returns_attempt_error { path := "ns1/" } "secret/x"
      (some "boom")).2
     ⟨some "boom", some ("ns1/secret/x", false), true, true⟩
     ⟨some "boom", some ("ns1/secret/x", false), true, true⟩
     (by decide) (by decide)⟩

/-- C10: a synchronous `Rollback` whose namespace derivation fails returns
that error immediately; `startOrLookupRollback` is never invoked — so the
in-flight registry is untouched, no attempt is created or joined — no
cancellation handle is triggered and no completion wait occurs. -/
theorem sync_rollback_ns_error (e : String) (nsV : Option Namespace)
    (path : String) (rsErr : GoError) :
    RollbackCall (some e) nsV path rsErr = some ⟨some e, none, false, false⟩ :=
  rfl

/-- C8: the periodic sweep passes to `startOrLookupRollback` exactly the
pairs whose path is the owning-namespace path followed by the target — the
mount path carrying the credential route segment exactly when the mount is
in the credential table — for those mounts whose backend resolves, always
with `grabStatelock = true`; a mount resolving to no backend contributes
nothing. -/
theorem sweep_target_characterization (backends : List MountEntry)
    (matching : MountEntry → String → Option Unit) (fp : String) (g : Bool) :
    ((fp, g) ∈ triggerRollbackCalls backends matching ↔
      g = true ∧ ∃ e ∈ backends, (matching e (rollbackTarget e)).isSome = true ∧
        fp = e.nsPath ++ rollbackTarget e) ∧
    (∀ e : MountEntry,
      (e.table = credentialTableType →
        rollbackTarget e = credentialRoutePfx ++ e.path) ∧
      (e.table ≠ credentialTableType → rollbackTarget e = e.path)) := by
  refine ⟨?_, ?_⟩
  · simp only [triggerRollbackCalls, List.mem_filterMap]
    constructor
    · rintro ⟨e, he, hfe⟩
      cases hm : matching e (rollbackTarget e) with
      | none => simp [hm] at hfe
      | some u =>
          simp only [hm, Option.some.injEq] at hfe
          rw [Prod.ext_iff] at hfe
          exact ⟨hfe.2.symm, e, he, by simp [hm], hfe.1.symm⟩
    · rintro ⟨hg, e, he, hm, rfl⟩
      refine ⟨e, he, ?_⟩
      cases hmm : matching e (rollbackTarget e) with
      | none => simp [hmm] at hm
      | some u => simp [hmm, hg]
  · intro e
    exact ⟨fun h => by simp [rollbackTarget, h],
           fun h => by simp [rollbackTarget, h]⟩

/-- Witness for C8: a credential mount with a resolvable backend is swept
under the credential route segment with `grabStatelock = true`. -/
theorem sweep_target_characterization_witness :
    ("ns1/auth/aws/", true) ∈
      triggerRollbackCalls [{ path := "aws/", table := "auth", nsPath := "ns1/" }]
        matchAllBackends :=
  (sweep_target_characterization
      [{ path := "aws/", table := "auth", nsPath := "ns1/" }]
      matchAllBackends "ns1/auth/aws/" true).1.mpr
    ⟨rfl, { path := "aws/", table := "auth", nsPath := "ns1/" }, by simp,
     rfl, by decide⟩
